import Mathlib

/-!
Verification of the gsa-2020 notebook glue code.

This file gives a shallow embedding of the executable content of the two
notebooks of the repository:

* `notebooks/landlab-terrainbento/coupled_process_elements/model_basicVs_steady_solution.ipynb`
  (the `run_to_steady` output writer, its convergence check, and the
  surrounding cell trace), and
* `notebooks/pymt/index.ipynb` (the Ku model lifecycle cells and the
  Part 4 driver loop).

Elevations and other physical quantities are modelled as rationals.
External library functions (terrainbento, pymt, numpy, pandas) are
abstracted as opaque parameters of the embedding wherever a claim
quantifies over their behaviour.
-/

namespace Gsa2020

/-- A node field (such as `topographic__elevation`) is a list of values
indexed by node id, as a numpy 1-d array. -/
abbrev Elev := List ℚ

/-- Numpy fancy indexing `z[idx]` at a list of node indices.  An
out-of-range read defaults to `0`; in the notebook every core-node index
is in range. -/
def sliceAt (z : Elev) (idx : List ℕ) : Elev :=
  idx.map (fun i => z.getD i 0)

/-- Python `max(abs(v))` over an array, as a fold over the absolute
values.  Python `max` raises on an empty array; on the nonempty arrays
the notebook feeds it, the fold below agrees with it because every
absolute value is nonnegative. -/
def maxAbs (l : Elev) : ℚ :=
  (l.map (fun x => |x|)).foldl max 0

/-- The elementwise difference `z[core] - w[core]` computed by
`run_one_step` of the `run_to_steady` output writer. -/
def diffOn (z w : Elev) (core : List ℕ) : Elev :=
  (sliceAt z core).zipWith (fun a b => a - b) (sliceAt w core)

/-- The state visible to the `run_to_steady` output writer: the model
elevation field `z`, the saved reference copy `last_z`, the core-node
index list of the grid, the tolerance captured at construction, the
clock stop time, the output interval, and the model time. -/
structure SteadyState where
  z : Elev
  last_z : Elev
  core_nodes : List ℕ
  tolerance : ℚ
  clock_stop : ℚ
  output_interval : ℚ
  model_time : ℚ
  deriving DecidableEq, Repr

/-- The array compared by the convergence check:
`self.model.z[model.grid.core_nodes] - self.last_z[model.grid.core_nodes]`. -/
def coreDiff (s : SteadyState) : Elev :=
  diffOn s.z s.last_z s.core_nodes

/-- Translation of `run_to_steady.run_one_step`, line by line from the
notebook cell.  The returned boolean records whether the steady-state
message was printed (the steady-state declaration).

Python source:

```
def run_one_step(self):
    if model.model_time > 0:
        diff = (self.model.z[model.grid.core_nodes] -
                self.last_z[model.grid.core_nodes])
        if max(abs(diff)) <= self.tolerance:
            self.model.clock.stop = model._model_time
            print("Model reached steady state in " ...)
        else:
            self.last_z = self.model.z.copy()
            if model._model_time <= self.model.clock.stop - self.model.output_interval:
                self.model.clock.stop += self.model.output_interval
```
-/
def run_one_step (s : SteadyState) : SteadyState × Bool :=
  if 0 < s.model_time then
    if maxAbs (coreDiff s) ≤ s.tolerance then
      ({ s with clock_stop := s.model_time }, true)
    else
      let s1 := { s with last_z := s.z }
      if s.model_time ≤ s.clock_stop - s.output_interval then
        ({ s1 with clock_stop := s1.clock_stop + s1.output_interval }, false)
      else
        (s1, false)
  else
    (s, false)

/-- Concrete state used to witness the decision theorem: model time
`10000`, one core node, current elevation `[1]`, reference `[0]`,
tolerance `20` as in the notebook. -/
def sC1 : SteadyState :=
  ⟨[1], [0], [0], 20, 10000000, 10000, 10000⟩

/-- C1: At any call of `run_one_step` made at a model time greater
than zero: the steady-state declaration is made if and only if the
maximum absolute difference of the compared elevation arrays (current
versus saved reference, restricted to core nodes as the check computes
them) is at most the tolerance; on declaration the clock stop time is
set to the current model time; otherwise the current elevation array is
saved as the new reference. -/
theorem run_one_step_decision (s : SteadyState) (h : 0 < s.model_time) :
    ((run_one_step s).2 = true ↔ maxAbs (coreDiff s) ≤ s.tolerance)
      ∧ ((run_one_step s).2 = true → (run_one_step s).1.clock_stop = s.model_time)
      ∧ ((run_one_step s).2 = false → (run_one_step s).1.last_z = s.z) := by
  by_cases hc : maxAbs (coreDiff s) ≤ s.tolerance
  · simp [run_one_step, h, hc]
  · by_cases hd : s.model_time ≤ s.clock_stop - s.output_interval
    · simp [run_one_step, h, hc, hd]
    · simp [run_one_step, h, hc, hd]

/-- Witness for `run_one_step_decision` at the concrete state `sC1`. -/
theorem run_one_step_decision_witness :
    ((run_one_step sC1).2 = true ↔ maxAbs (coreDiff sC1) ≤ sC1.tolerance)
      ∧ ((run_one_step sC1).2 = true → (run_one_step sC1).1.clock_stop = sC1.model_time)
      ∧ ((run_one_step sC1).2 = false → (run_one_step sC1).1.last_z = sC1.z) :=
  run_one_step_decision sC1 (by norm_num [sC1])

/-- First concrete state for the noninterference witness: core node `0`,
boundary node `1` carries elevation `999`. -/
def sC7a : SteadyState :=
  ⟨[1, 999], [0, 0], [0], 20, 500, 100, 50⟩

/-- Second concrete state for the noninterference witness: identical to
`sC7a` on the core node and on every scalar, but with different
elevations at the boundary node `1` in both arrays. -/
def sC7b : SteadyState :=
  ⟨[1, -77], [0, 5], [0], 20, 500, 100, 50⟩

/-- C7: The steady-state decision of `run_one_step` depends only on
elevations at core nodes: two states agreeing on the model time, the
clock stop, the tolerance, the output interval, the core-node list, and
on both elevation arrays restricted to core nodes, but arbitrary at
non-core nodes, yield the same steady-state decision and the same
resulting clock stop value. -/
theorem run_one_step_core_noninterference (s t : SteadyState)
    (hcore : s.core_nodes = t.core_nodes)
    (hm : s.model_time = t.model_time)
    (hstop : s.clock_stop = t.clock_stop)
    (htol : s.tolerance = t.tolerance)
    (hint : s.output_interval = t.output_interval)
    (hz : sliceAt s.z s.core_nodes = sliceAt t.z t.core_nodes)
    (hlz : sliceAt s.last_z s.core_nodes = sliceAt t.last_z t.core_nodes) :
    (run_one_step s).2 = (run_one_step t).2
      ∧ (run_one_step s).1.clock_stop = (run_one_step t).1.clock_stop := by
  have hdiff : coreDiff s = coreDiff t := by
    unfold coreDiff diffOn
    rw [hcore] at hz hlz
    rw [hcore, hz, hlz]
  unfold run_one_step
  rw [hdiff, hm, hstop, htol, hint]
  by_cases h1 : 0 < t.model_time <;>
    by_cases h2 : maxAbs (coreDiff t) ≤ t.tolerance <;>
      by_cases h3 : t.model_time ≤ t.clock_stop - t.output_interval <;>
        simp [h1, h2, h3, hstop]

/-- Witness for `run_one_step_core_noninterference` at the concrete
states `sC7a` and `sC7b`, which differ only at the boundary node. -/
theorem run_one_step_core_noninterference_witness :
    (run_one_step sC7a).2 = (run_one_step sC7b).2
      ∧ (run_one_step sC7a).1.clock_stop = (run_one_step sC7b).1.clock_stop :=
  run_one_step_core_noninterference sC7a sC7b rfl rfl rfl rfl rfl
    (by decide) (by decide)

/-- Modelled from the spec: the terrainbento `model.run` driver invoked
by `model.run()` is external library code, not part of this repository.
Following the notebook, which installs `run_to_steady` as an output
writer so as to "run until the model reaches steady state", the driver
is modelled as a loop that, while the model time has not reached
`clock.stop`, advances the model by one output interval and then calls
the output writer `run_one_step`.  The external erosion physics is
abstracted as the prescribed elevation sequence `zs`, giving the model
elevation field at each output step.  One driver iteration: advance the
model time by the output interval, install the externally computed
elevations, run the output writer. -/
def driverStep (zs : ℕ → Elev) (d : ℕ × SteadyState) : ℕ × SteadyState :=
  let n := d.1 + 1
  let s := { d.2 with
      model_time := d.2.model_time + d.2.output_interval
      z := zs n }
  (n, (run_one_step s).1)

/-- Modelled from the spec: fuelled unfolding of the external
`model.run` loop (`while model_time < clock.stop`).  `none` means the
fuel was exhausted with the loop still running; `some` means the loop
exited. -/
def driverRun (zs : ℕ → Elev) : ℕ → ℕ × SteadyState → Option (ℕ × SteadyState)
  | 0, d => if d.2.model_time < d.2.clock_stop then none else some d
  | fuel + 1, d =>
      if d.2.model_time < d.2.clock_stop then driverRun zs fuel (driverStep zs d)
      else some d

/-- Invariant of the non-converging run: the writer state tracks the
prescribed elevation sequence, the reference copy is the elevation of
the previous output step, the model time is nonnegative, and the clock
stop keeps a headroom of two output intervals. -/
def DriverInv (zs : ℕ → Elev) (core : List ℕ) (tol interval : ℚ)
    (d : ℕ × SteadyState) : Prop :=
  d.2.core_nodes = core ∧ d.2.tolerance = tol ∧ d.2.output_interval = interval
    ∧ d.2.z = zs d.1 ∧ d.2.last_z = zs d.1
    ∧ 0 ≤ d.2.model_time ∧ d.2.model_time + 2 * interval ≤ d.2.clock_stop

lemma driverInv_preserved (zs : ℕ → Elev) (core : List ℕ) (tol interval : ℚ)
    (hint : 0 < interval) (d : ℕ × SteadyState)
    (hnc1 : tol < maxAbs (diffOn (zs (d.1 + 1)) (zs d.1) core))
    (hd : DriverInv zs core tol interval d) :
    DriverInv zs core tol interval (driverStep zs d) := by
  obtain ⟨h1, h2, h3, h4, h5, h6, h7⟩ := hd
  have hpos : 0 < d.2.model_time + interval := by linarith
  have hnconv : ¬ maxAbs (diffOn (zs (d.1 + 1)) (zs d.1) core) ≤ tol :=
    not_le.mpr hnc1
  have hhead : d.2.model_time + interval ≤ d.2.clock_stop - interval := by
    linarith
  have hstep : driverStep zs d
      = (d.1 + 1, ⟨zs (d.1 + 1), zs (d.1 + 1), core, tol,
          d.2.clock_stop + interval, interval, d.2.model_time + interval⟩) := by
    simp only [driverStep, run_one_step, coreDiff, h1, h2, h3, h5]
    rw [if_pos hpos, if_neg hnconv, if_pos hhead]
  rw [hstep]
  refine ⟨rfl, rfl, rfl, rfl, rfl, ?_, ?_⟩ <;> dsimp only <;> linarith

/-- The loop condition holds forever under the invariant, so every fuel
bound is exhausted. -/
lemma driverRun_none (zs : ℕ → Elev) (core : List ℕ) (tol interval : ℚ)
    (hint : 0 < interval)
    (hnc : ∀ n, 1 ≤ n → tol < maxAbs (diffOn (zs n) (zs (n - 1)) core)) :
    ∀ fuel d, DriverInv zs core tol interval d → driverRun zs fuel d = none := by
  intro fuel
  induction fuel with
  | zero =>
      intro d hd
      have hlt : d.2.model_time < d.2.clock_stop := by
        obtain ⟨-, -, -, -, -, h6, h7⟩ := hd
        linarith
      simp [driverRun, hlt]
  | succ k ih =>
      intro d hd
      have hlt : d.2.model_time < d.2.clock_stop := by
        obtain ⟨-, -, -, -, -, h6, h7⟩ := hd
        linarith
      simp only [driverRun, if_pos hlt]
      have hnc1 : tol < maxAbs (diffOn (zs (d.1 + 1)) (zs d.1) core) := by
        have := hnc (d.1 + 1) (Nat.le_add_left 1 d.1)
        simpa using this
      exact ih _ (driverInv_preserved zs core tol interval hint d hnc1 hd)

/-- If the convergence check succeeds at output step `k` and fails at
every earlier positive step, the loop exits: the converged call sets
`clock.stop` to the current model time, so the next loop test
`model_time < clock.stop` is false. -/
lemma driverRun_isSome_of_conv (zs : ℕ → Elev) (core : List ℕ)
    (tol interval : ℚ) (hint : 0 < interval) (k : ℕ)
    (hconv : maxAbs (diffOn (zs k) (zs (k - 1)) core) ≤ tol)
    (hmin : ∀ m, 1 ≤ m → m < k → tol < maxAbs (diffOn (zs m) (zs (m - 1)) core)) :
    ∀ r d, DriverInv zs core tol interval d → d.1 + r + 1 = k →
      (driverRun zs (r + 1) d).isSome = true := by
  intro r
  induction r with
  | zero =>
      intro d hd hk
      have hk1 : d.1 + 1 = k := by omega
      subst hk1
      simp only [Nat.add_sub_cancel] at hconv
      obtain ⟨h1, h2, h3, h4, h5, h6, h7⟩ := hd
      have hcond : d.2.model_time < d.2.clock_stop := by linarith
      have hpos : 0 < d.2.model_time + interval := by linarith
      have hstep : driverStep zs d
          = (d.1 + 1, ⟨zs (d.1 + 1), zs d.1, core, tol,
              d.2.model_time + interval, interval,
              d.2.model_time + interval⟩) := by
        simp only [driverStep, run_one_step, coreDiff, h1, h2, h3, h5]
        rw [if_pos hpos, if_pos hconv]
      rw [driverRun, if_pos hcond, hstep, driverRun]
      dsimp only
      rw [if_neg (lt_irrefl _)]
      rfl
  | succ r ih =>
      intro d hd hk
      have hcond : d.2.model_time < d.2.clock_stop := by
        obtain ⟨-, -, -, -, -, h6, h7⟩ := hd
        linarith
      have hnc1 : tol < maxAbs (diffOn (zs (d.1 + 1)) (zs d.1) core) := by
        have := hmin (d.1 + 1) (Nat.le_add_left 1 d.1) (by omega)
        simpa using this
      rw [driverRun, if_pos hcond]
      exact ih (driverStep zs d)
        (driverInv_preserved zs core tol interval hint d hnc1 hd)
        (by show d.1 + 1 + r + 1 = k; omega)

/-- C2: Driven by the `run_to_steady` output writer, the fuelled run
loop halts if and only if at some output step after time zero the
maximum absolute elevation change at core nodes since the previous
check is at most the tolerance.  In every non-converged output step at
positive model time with at least one output interval of headroom,
`clock.stop` grows by one output interval (first conjunct), so on an
input that never converges the loop never exits at any fuel bound
(second conjunct); and the loop exits at some fuel bound exactly when
some output step converges (third conjunct). -/
theorem driver_halts_iff (zs : ℕ → Elev) (core : List ℕ)
    (tol interval stop0 : ℚ) (hint : 0 < interval)
    (hstop : 2 * interval ≤ stop0) :
    (∀ s : SteadyState, 0 < s.model_time
        → ¬ maxAbs (coreDiff s) ≤ s.tolerance
        → s.model_time ≤ s.clock_stop - s.output_interval
        → (run_one_step s).1.clock_stop = s.clock_stop + s.output_interval)
      ∧ ((∀ n, 1 ≤ n → tol < maxAbs (diffOn (zs n) (zs (n - 1)) core))
          → ∀ fuel,
            driverRun zs fuel (0, ⟨zs 0, zs 0, core, tol, stop0, interval, 0⟩)
              = none)
      ∧ ((∃ fuel,
            (driverRun zs fuel
              (0, ⟨zs 0, zs 0, core, tol, stop0, interval, 0⟩)).isSome = true)
          ↔ ∃ n, 1 ≤ n ∧ maxAbs (diffOn (zs n) (zs (n - 1)) core) ≤ tol) := by
  have inv0 : DriverInv zs core tol interval
      (0, ⟨zs 0, zs 0, core, tol, stop0, interval, 0⟩) :=
    ⟨rfl, rfl, rfl, rfl, rfl, le_refl 0, by simpa using hstop⟩
  refine ⟨?_, ?_, ?_, ?_⟩
  · intro s hs hc hd
    simp [run_one_step, hs, hc, hd]
  · intro hnc fuel
    exact driverRun_none zs core tol interval hint hnc fuel _ inv0
  · rintro ⟨fuel, hsome⟩
    by_contra hnc
    push_neg at hnc
    rw [driverRun_none zs core tol interval hint hnc fuel _ inv0] at hsome
    simp at hsome
  · intro hconv
    classical
    have hfind := Nat.find_spec hconv
    set k := Nat.find hconv with hkdef
    have hk1 : 1 ≤ k := hfind.1
    have hmin : ∀ m, 1 ≤ m → m < k
        → tol < maxAbs (diffOn (zs m) (zs (m - 1)) core) := by
      intro m h1m hmk
      by_contra hle
      push_neg at hle
      exact Nat.find_min hconv hmk ⟨h1m, hle⟩
    refine ⟨(k - 1) + 1, ?_⟩
    exact driverRun_isSome_of_conv zs core tol interval hint k hfind.2 hmin
      (k - 1) _ inv0 (by omega)

/-- Elevation sequence for the witness of the halting biconditional:
one core node whose elevation rises by `100` every output step, never
within the tolerance `20`. -/
def zsC2 : ℕ → Elev := fun n => [100 * (n : ℚ)]

/-- Initial driver state for the witness of the halting biconditional:
the notebook values `stop = 10^7`, `output_interval = 10^4`,
tolerance `20`. -/
def dC2 : ℕ × SteadyState :=
  (0, ⟨zsC2 0, zsC2 0, [0], 20, 10000000, 10000, 0⟩)

/-- Witness for `driver_halts_iff` at the concrete elevation sequence
`zsC2` and the notebook clock values. -/
theorem driver_halts_iff_witness :
    (∀ s : SteadyState, 0 < s.model_time
        → ¬ maxAbs (coreDiff s) ≤ s.tolerance
        → s.model_time ≤ s.clock_stop - s.output_interval
        → (run_one_step s).1.clock_stop = s.clock_stop + s.output_interval)
      ∧ ((∀ n, 1 ≤ n → (20 : ℚ) < maxAbs (diffOn (zsC2 n) (zsC2 (n - 1)) [0]))
          → ∀ fuel, driverRun zsC2 fuel dC2 = none)
      ∧ ((∃ fuel, (driverRun zsC2 fuel dC2).isSome = true)
          ↔ ∃ n, 1 ≤ n ∧ maxAbs (diffOn (zsC2 n) (zsC2 (n - 1)) [0]) ≤ 20) :=
  driver_halts_iff zsC2 [0] 20 10000 10000000 (by norm_num) (by norm_num)

/-! ## The pymt notebook: BMI call order (`notebooks/pymt/index.ipynb`) -/

/-- The model-interface events the pymt notebook cells perform on the Ku
model: constructing a model object, `setup`, `initialize` (`init`),
`update`, `set_value` (`setVal`), `get_value` (`getVal`). -/
inductive BmiEvent
  | newModel
  | setup
  | init
  | update
  | setVal
  | getVal
  deriving DecidableEq, Repr

/-- Progress flags of the current simulation episode: whether `setup`,
`initialize`, and at least one `update` of this episode have happened. -/
structure BmiStatus where
  hasSetup : Bool
  hasInit : Bool
  hasUpdate : Bool
  deriving DecidableEq, Repr

/-- One event of the uniform interface, checked against the episode
flags: `initialize` requires a prior `setup` of the episode; `update`
and `set_value` require a prior `initialize`; `get_value` requires a
prior `update` of the episode; constructing a model or calling `setup`
begins a fresh episode. -/
def bmiNext : BmiStatus → BmiEvent → Option BmiStatus
  | _, .newModel => some ⟨false, false, false⟩
  | _, .setup => some ⟨true, false, false⟩
  | st, .init => if st.hasSetup then some ⟨st.hasSetup, true, false⟩ else none
  | st, .update => if st.hasInit then some { st with hasUpdate := true } else none
  | st, .setVal => if st.hasInit then some st else none
  | st, .getVal => if st.hasUpdate then some st else none

/-- Run the episode check over an event list; `none` marks the first
out-of-order interface call. -/
def bmiRun : BmiStatus → List BmiEvent → Option BmiStatus
  | st, [] => some st
  | st, e :: es =>
      match bmiNext st e with
      | some st2 => bmiRun st2 es
      | none => none

lemma bmiRun_append (st : BmiStatus) (l1 l2 : List BmiEvent) :
    bmiRun st (l1 ++ l2)
      = match bmiRun st l1 with
        | some st2 => bmiRun st2 l2
        | none => none := by
  induction l1 generalizing st with
  | nil => rfl
  | cons e es ih =>
      simp only [List.cons_append, bmiRun]
      cases bmiNext st e with
      | none => rfl
      | some st2 => exact ih st2

/-- The Part 4 driver loop body, as performed by each iteration of
`for i in range(n_steps)`: three `set_value` calls for the forcings,
one `update`, one `get_value` of the active-layer thickness. -/
def kuLoopBody : List BmiEvent :=
  [.setVal, .setVal, .setVal, .update, .getVal]

/-- Concatenation of `n` copies of the Part 4 loop body. -/
def kuLoopTrace : ℕ → List BmiEvent
  | 0 => []
  | n + 1 => kuLoopBody ++ kuLoopTrace n

/-- The Ku model events of the pymt notebook cells before the Part 4
loop, in cell order: Part 1 (construct, `setup(T_air, A_air)`,
`initialize`, `update`, `get_value`), Parts 2 and 3 (two episodes each
of `setup`, `initialize`, `update`, `get_value`), and the Part 4 lead-in
(a fresh model, `setup(end_year=2050)`, `initialize`). -/
def pymtOpening : List BmiEvent :=
  [.newModel, .setup, .init, .update, .getVal,
   .setup, .init, .update, .getVal,
   .setup, .init, .update, .getVal,
   .setup, .init, .update, .getVal,
   .setup, .init, .update, .getVal,
   .newModel, .setup, .init]

/-- The full Ku event trace of the pymt notebook when the Part 4 loop
runs `n` iterations. -/
def pymtTrace (n : ℕ) : List BmiEvent :=
  pymtOpening ++ kuLoopTrace n

lemma bmiRun_kuLoopTrace (n : ℕ) :
    bmiRun ⟨true, true, true⟩ (kuLoopTrace n) = some ⟨true, true, true⟩ := by
  induction n with
  | zero => rfl
  | succ k ih =>
      rw [kuLoopTrace, bmiRun_append,
        (by decide : bmiRun ⟨true, true, true⟩ kuLoopBody
          = some ⟨true, true, true⟩)]
      exact ih

/-- C4: In every simulation episode of the Ku model in the pymt
notebook, `setup` precedes `initialize`, `initialize` precedes every
`update`, every `get_value` follows at least one `update` of its
episode, and `set_value` is never called before `initialize`: the
episode check accepts the whole notebook trace, for any number of
Part 4 loop iterations. -/
theorem bmi_order_ok (n : ℕ) :
    (bmiRun ⟨false, false, false⟩ (pymtTrace n)).isSome = true := by
  rw [pymtTrace, bmiRun_append,
    (by decide : bmiRun ⟨false, false, false⟩ pymtOpening
      = some ⟨true, true, false⟩)]
  dsimp only
  cases n with
  | zero => rfl
  | succ k =>
      rw [kuLoopTrace, bmiRun_append,
        (by decide : bmiRun ⟨true, true, false⟩ kuLoopBody
          = some ⟨true, true, true⟩)]
      dsimp only
      rw [bmiRun_kuLoopTrace k]
      rfl

/-! ## The BasicVs notebook: seeded determinism -/

/-- Abstract model of the numpy global random generator: `seedFn` is
`np.random.seed`, mapping a seed to an internal state; `nextFn` draws
one value and advances the state.  Both are opaque parameters. -/
structure RngModel where
  seedFn : ℕ → ℕ
  nextFn : ℕ → ℚ × ℕ

/-- Draw `k` values from the generator state `s`, returning the values
and the final state. -/
def drawMany (R : RngModel) : ℕ → ℕ → List ℚ × ℕ
  | 0, s => ([], s)
  | k + 1, s =>
      let v := (R.nextFn s).1
      let s2 := (R.nextFn s).2
      let rest := drawMany R k s2
      (v :: rest.1, rest.2)

/-- Number of core nodes of the `(25, 40)` raster grid of the `params`
dictionary: all nodes except the outer boundary ring. -/
def numCoreNodes : ℕ := 23 * 38

/-- The BasicVs notebook run as a function of the ambient numpy random
state: cell 1 ends with `np.random.seed(4897)`, which replaces the
ambient state; `BasicVs.from_dict(params, ...)` then draws the random
initial `topographic__elevation` on the core nodes (the only random
input of the run); the remaining evolution `model.run()` is the
external deterministic library, abstracted as `fromDictRun` applied to
the drawn topography and the `params` dictionary. -/
def basicVsOutcome {P M : Type} (R : RngModel) (fromDictRun : List ℚ → P → M)
    (params : P) (_ambientState : ℕ) : M :=
  let s0 := R.seedFn 4897
  let topo := (drawMany R numCoreNodes s0).1
  fromDictRun topo params

/-- C5: The BasicVs notebook run is a deterministic function of its
`params` dictionary: for any generator model and any deterministic
external library, two executions from arbitrary (possibly different)
ambient random states produce identical outcomes, because
`np.random.seed(4897)` fixes the generator state before the model is
constructed from the dictionary. -/
theorem seeded_run_deterministic {P M : Type} (R : RngModel)
    (fromDictRun : List ℚ → P → M) (params : P) (a b : ℕ) :
    basicVsOutcome R fromDictRun params a
      = basicVsOutcome R fromDictRun params b := rfl

/-! ## The pymt notebook: the Part 4 driver loop -/

/-- The Ku variable names used by the Part 4 loop:
`atmosphere_bottom_air__temperature` (`maatV`),
`atmosphere_bottom_air__temperature_amplitude` (`tampV`),
`snowpack__depth` (`snowV`), `soil__active_layer_thickness`
(`thicknessV`). -/
inductive KuVar
  | maatV
  | tampV
  | snowV
  | thicknessV
  deriving DecidableEq, Repr

/-- The Part 4 driver loop of the pymt notebook, translated from

```
for i in range(n_steps):
    ku.set_value("atmosphere_bottom_air__temperature", maat.values[i])
    ku.set_value("atmosphere_bottom_air__temperature_amplitude", tamp.values[i])
    ku.set_value("snowpack__depth", snow_depth.values[i])
    ku.update()
    thickness[i] = ku.get_value("soil__active_layer_thickness")
```

The Ku model state has the opaque type `α`, with the library functions
`set_value`, `update`, `get_value` as parameters.  The forcing series
are the three downloaded pandas columns; reading `values[i]` is the
fallible indexing `List.get?`, and an out-of-range read aborts the loop
with `none` (the embedded image of the `IndexError` the Python loop
would raise).  The first argument counts the remaining iterations, the
second is the current index `i`; `acc` accumulates the recorded
thickness values in reverse. -/
def part4Loop {α : Type} (setv : KuVar → ℚ → α → α) (update : α → α)
    (getv : KuVar → α → ℚ) (maat tamp snow : List ℚ) :
    ℕ → ℕ → α → List ℚ → Option (α × List ℚ)
  | 0, _, ku, acc => some (ku, acc.reverse)
  | n + 1, i, ku, acc =>
      match maat.get? i, tamp.get? i, snow.get? i with
      | some m, some t, some sd =>
          let ku1 := setv .maatV m ku
          let ku2 := setv .tampV t ku1
          let ku3 := setv .snowV sd ku2
          let ku4 := update ku3
          part4Loop setv update getv maat tamp snow n (i + 1) ku4
            (getv .thicknessV ku4 :: acc)
      | _, _, _ => none

/-- The whole Part 4 loop, started at `i = 0` with an empty thickness
record, running `n = n_steps` iterations from the freshly initialized
model `ku0`. -/
def part4Run {α : Type} (setv : KuVar → ℚ → α → α) (update : α → α)
    (getv : KuVar → α → ℚ) (maat tamp snow : List ℚ) (n : ℕ) (ku0 : α) :
    Option (α × List ℚ) :=
  part4Loop setv update getv maat tamp snow n 0 ku0 []

/-- The model state after one loop iteration at index `i`: the three
forcings of step `i` are set, then the model is stepped once. -/
def kuStep {α : Type} (setv : KuVar → ℚ → α → α) (update : α → α)
    (maat tamp snow : List ℚ) (i : ℕ) (ku : α) : α :=
  update (setv .snowV (snow.getD i 0)
    (setv .tampV (tamp.getD i 0)
      (setv .maatV (maat.getD i 0) ku)))

/-- The model state after the first `k` loop iterations: exactly `k`
applications of `update`, one per iteration. -/
def kuStateAt {α : Type} (setv : KuVar → ℚ → α → α) (update : α → α)
    (maat tamp snow : List ℚ) (ku0 : α) : ℕ → α
  | 0 => ku0
  | k + 1 => kuStep setv update maat tamp snow k
      (kuStateAt setv update maat tamp snow ku0 k)

lemma get?_eq_some_getD {l : List ℚ} {i : ℕ} (h : i < l.length) :
    l.get? i = some (l.getD i 0) := by
  cases hg : l.get? i with
  | none => exact absurd (List.get?_eq_none.mp hg) (Nat.not_le.mpr h)
  | some x =>
      rw [List.get?_eq_getElem?] at hg
      simp [List.getD_eq_getElem?_getD, hg]

lemma part4Loop_isSome_iff {α : Type} (setv : KuVar → ℚ → α → α)
    (update : α → α) (getv : KuVar → α → ℚ) (maat tamp snow : List ℚ) :
    ∀ n i ku acc,
      (part4Loop setv update getv maat tamp snow n i ku acc).isSome = true
        ↔ ∀ j, j < n →
            i + j < maat.length ∧ i + j < tamp.length ∧ i + j < snow.length := by
  intro n
  induction n with
  | zero =>
      intro i ku acc
      simp [part4Loop]
  | succ k ih =>
      intro i ku acc
      by_cases hm : i < maat.length
      · by_cases ht : i < tamp.length
        · by_cases hs : i < snow.length
          · rw [part4Loop, get?_eq_some_getD hm, get?_eq_some_getD ht,
              get?_eq_some_getD hs]
            dsimp only
            rw [ih]
            constructor
            · intro h j hj
              cases j with
              | zero => exact ⟨by simpa using hm, by simpa using ht,
                  by simpa using hs⟩
              | succ j' =>
                  have := h j' (Nat.lt_of_succ_lt_succ hj)
                  omega
            · intro h j hj
              have := h (j + 1) (Nat.succ_lt_succ hj)
              omega
          · rw [part4Loop]
            have hg : snow.get? i = none := List.get?_eq_none.mpr (by omega)
            rw [hg]
            constructor
            · intro h
              cases hm2 : maat.get? i <;> cases ht2 : tamp.get? i <;>
                simp [hm2, ht2] at h
            · intro h
              exact absurd (h 0 (Nat.succ_pos k)).2.2 (by omega)
        · rw [part4Loop]
          have hg : tamp.get? i = none := List.get?_eq_none.mpr (by omega)
          rw [hg]
          constructor
          · intro h
            cases hm2 : maat.get? i <;> cases hs2 : snow.get? i <;>
              simp [hm2, hs2] at h
          · intro h
            exact absurd (h 0 (Nat.succ_pos k)).2.1 (by omega)
      · rw [part4Loop]
        have hg : maat.get? i = none := List.get?_eq_none.mpr (by omega)
        rw [hg]
        constructor
        · intro h
          cases ht2 : tamp.get? i <;> cases hs2 : snow.get? i <;>
            simp [ht2, hs2] at h
        · intro h
          exact absurd (h 0 (Nat.succ_pos k)).1 (by omega)

/-- C6: With the three downloaded 1961-2015 forcing series holding
55 rows each, every per-step read `maat.values[i]`, `tamp.values[i]`,
`snow_depth.values[i]` of the Part 4 loop is in bounds (the
Option-returning embedded index never hits the out-of-range branch) if
and only if `n_steps` does not exceed 55. -/
theorem part4_access_inbounds_iff {α : Type} (setv : KuVar → ℚ → α → α)
    (update : α → α) (getv : KuVar → α → ℚ) (maat tamp snow : List ℚ)
    (ku0 : α) (n : ℕ) (hm : maat.length = 55) (ht : tamp.length = 55)
    (hs : snow.length = 55) :
    (part4Run setv update getv maat tamp snow n ku0).isSome = true
      ↔ n ≤ 55 := by
  rw [part4Run, part4Loop_isSome_iff]
  constructor
  · intro h
    by_contra hn
    have := h 55 (by omega)
    omega
  · intro hn j hj
    omega

/-- Witness data for the Part 4 loop theorems: the Ku model state is
instrumented as a counter of `update` calls. -/
def part4W : Option (ℕ × List ℚ) :=
  part4Run (fun _ _ ku => ku) (fun ku => ku + 1) (fun _ ku => (ku : ℚ))
    (List.replicate 55 0) (List.replicate 55 0) (List.replicate 55 0) 3 0

/-- Witness for `part4_access_inbounds_iff`: with 55-row forcing series
and `n_steps = 3`, every access is in bounds. -/
theorem part4_access_inbounds_iff_witness : part4W.isSome = true :=
  (part4_access_inbounds_iff (fun _ _ ku => ku) (fun ku => ku + 1)
    (fun _ ku => (ku : ℚ)) (List.replicate 55 0) (List.replicate 55 0)
    (List.replicate 55 0) 0 3 (by simp) (by simp) (by simp)).mpr
    (by norm_num)

lemma part4Loop_eq {α : Type} (setv : KuVar → ℚ → α → α) (update : α → α)
    (getv : KuVar → α → ℚ) (maat tamp snow : List ℚ) (ku0 : α) :
    ∀ n i acc, i + n ≤ maat.length → i + n ≤ tamp.length
      → i + n ≤ snow.length →
      part4Loop setv update getv maat tamp snow n i
          (kuStateAt setv update maat tamp snow ku0 i) acc
        = some (kuStateAt setv update maat tamp snow ku0 (i + n),
            acc.reverse ++ (List.range n).map (fun j =>
              getv .thicknessV
                (kuStateAt setv update maat tamp snow ku0 (i + j + 1)))) := by
  intro n
  induction n with
  | zero =>
      intro i acc _ _ _
      simp [part4Loop]
  | succ k ih =>
      intro i acc hm ht hs
      rw [part4Loop, get?_eq_some_getD (by omega), get?_eq_some_getD (by omega),
        get?_eq_some_getD (by omega)]
      dsimp only
      have hk1 : update (setv .snowV (snow.getD i 0)
            (setv .tampV (tamp.getD i 0)
              (setv .maatV (maat.getD i 0)
                (kuStateAt setv update maat tamp snow ku0 i))))
          = kuStateAt setv update maat tamp snow ku0 (i + 1) := rfl
      rw [hk1, ih (i + 1) _ (by omega) (by omega) (by omega)]
      have harg : i + 1 + k = i + (k + 1) := by omega
      have hfun : (fun j => getv .thicknessV
            (kuStateAt setv update maat tamp snow ku0 (i + 1 + j + 1)))
          = fun j => getv .thicknessV
            (kuStateAt setv update maat tamp snow ku0 (i + (j + 1) + 1)) := by
        funext j
        have h : i + 1 + j + 1 = i + (j + 1) + 1 := by omega
        rw [h]
      rw [harg, hfun]
      congr 1
      rw [List.range_succ_eq_map, List.map_cons, List.reverse_cons,
        List.map_map, List.append_assoc]
      rfl

/-- C10: When the forcing series cover all `n_steps` steps, the
Part 4 driver loop calls the Ku `update` exactly `n_steps` times (the
final model state is the `n_steps`-fold iterate of the per-step
set-three-forcings-then-update transition), records exactly one
active-layer-thickness value per update, and on completion the
thickness record holds `n_steps` values in chronological order (the
`j`-th recorded value is the thickness read after the `j + 1`-st
update). -/
theorem part4_loop_shape {α : Type} (setv : KuVar → ℚ → α → α)
    (update : α → α) (getv : KuVar → α → ℚ) (maat tamp snow : List ℚ)
    (ku0 : α) (n : ℕ) (hm : n ≤ maat.length) (ht : n ≤ tamp.length)
    (hs : n ≤ snow.length) :
    part4Run setv update getv maat tamp snow n ku0
        = some (kuStateAt setv update maat tamp snow ku0 n,
            (List.range n).map (fun j =>
              getv .thicknessV (kuStateAt setv update maat tamp snow ku0 (j + 1))))
      ∧ ((List.range n).map (fun j =>
          getv .thicknessV
            (kuStateAt setv update maat tamp snow ku0 (j + 1)))).length = n := by
  constructor
  · have h := part4Loop_eq setv update getv maat tamp snow ku0 n 0 []
      (by omega) (by omega) (by omega)
    simpa [part4Run] using h
  · simp

/-- Witness for `part4_loop_shape`: instrumenting the Ku state as an
update counter, three loop iterations over 55-row series produce three
recorded values. -/
theorem part4_loop_shape_witness :
    part4W
        = some (kuStateAt (fun _ _ ku => ku) (fun ku => ku + 1)
            (List.replicate 55 0) (List.replicate 55 0) (List.replicate 55 0) 0 3,
            (List.range 3).map (fun j =>
              (fun _ (ku : ℕ) => (ku : ℚ)) KuVar.thicknessV
                (kuStateAt (fun _ _ ku => ku) (fun ku => ku + 1)
                  (List.replicate 55 0) (List.replicate 55 0)
                  (List.replicate 55 0) 0 (j + 1))))
      ∧ ((List.range 3).map (fun j =>
          (fun _ (ku : ℕ) => (ku : ℚ)) KuVar.thicknessV
            (kuStateAt (fun _ _ ku => ku) (fun ku => ku + 1)
              (List.replicate 55 0) (List.replicate 55 0)
              (List.replicate 55 0) 0 (j + 1)))).length = 3 :=
  part4_loop_shape (fun _ _ ku => ku) (fun ku : ℕ => ku + 1)
    (fun _ ku => (ku : ℚ)) (List.replicate 55 0) (List.replicate 55 0)
    (List.replicate 55 0) (0 : ℕ) 3 (by simp) (by simp) (by simp)

/-! ## Operation inventory of the two notebooks

A statement-level transcription of every operation the notebook cells
perform, in source order, used to settle the inventory claims (which
calls drive a model, where arithmetic is computed, absence of
concurrency).  Every external call is opaque: only its classification
is recorded. -/

/-- The functions through which the notebooks drive a simulation model:
the pymt Ku constructor and its five uniform-interface calls, and the
terrainbento calls `BasicVs.from_dict`, `model.run`,
`model.remove_output_netcdfs` and the grid query
`model.grid.node_has_boundary_neighbor`. -/
inductive MFn
  | kuNew
  | kuSetup
  | kuInit
  | kuUpdate
  | kuGetValue
  | kuSetValue
  | tbFromDict
  | tbRun
  | tbRemoveOutputNetcdfs
  | gridHasBoundaryNeighbor
  deriving DecidableEq, Repr

/-- The places where repository code computes arithmetic itself:
the convergence check of `run_one_step` (`model.model_time > 0`;
the core-node array difference; the `max(abs(diff)) <= tolerance`
threshold comparison; the `model_time <= clock.stop - output_interval`
headroom comparison; the `clock.stop += output_interval` increment),
the step count `n_steps = int((ku.end_time - ku.time) / ku.time_step)`
of the pymt notebook, and the constant plot-axis-limit expressions
`9 * 10**1` and `1 * 10**6` of the slope-area plot cell. -/
inductive ArithSite
  | timePositiveCmp
  | coreDiffArr
  | thresholdCmp
  | stopHeadroomCmp
  | stopIncr
  | stepCountCalc
  | plotAxisLimitConst
  deriving DecidableEq, Repr

/-- Classification of one notebook operation. -/
inductive Op
  | libImport
  | configSet
  | libCall
  | plotCall
  | modelNew (f : MFn)
  | modelCall (f : MFn)
  | modelGetAttr
  | modelSetAttr
  | localAssign
  | arith (s : ArithSite)
  | spawnThread
  | spawnProcess
  | spawnAsyncTask
  deriving DecidableEq, Repr

/-- Operation trace of
`model_basicVs_steady_solution.ipynb`, cell by cell. -/
def basicVsOps : List Op :=
  -- imports cell: os, numpy, matplotlib.pyplot, matplotlib,
  -- rcParams font.size and pdf.fonttype, landlab imshow_grid,
  -- landlab write_netcdf, terrainbento BasicVs, np.random.seed(4897)
  [.libImport, .libImport, .libImport, .libImport,
   .configSet, .configSet,
   .libImport, .libImport, .libImport,
   .libCall,
   -- params cell: the parameter dictionary literal
   .localAssign,
   -- tolerance cell: tolerance = 20.0
   .localAssign,
   -- run_to_steady cell, __init__ body: self.model = model;
   -- self.last_z = self.model.z.copy(); self.tolerance = tolerance
   .localAssign, .modelGetAttr, .libCall, .localAssign, .localAssign,
   -- run_to_steady cell, run_one_step body:
   -- if model.model_time > 0:
   .modelGetAttr, .arith .timePositiveCmp,
   -- diff = self.model.z[model.grid.core_nodes] - self.last_z[...]
   .modelGetAttr, .modelGetAttr, .modelGetAttr, .arith .coreDiffArr,
   -- if max(abs(diff)) <= self.tolerance:
   .libCall, .libCall, .arith .thresholdCmp,
   -- self.model.clock.stop = model._model_time; print(...)
   .modelGetAttr, .modelSetAttr, .libCall,
   -- else: self.last_z = self.model.z.copy()
   .modelGetAttr, .libCall, .localAssign,
   -- if model._model_time <= self.model.clock.stop - self.model.output_interval:
   .modelGetAttr, .modelGetAttr, .modelGetAttr, .arith .stopHeadroomCmp,
   -- self.model.clock.stop += self.model.output_interval
   .modelGetAttr, .modelSetAttr, .arith .stopIncr,
   -- run cell: model = BasicVs.from_dict(params, output_writers=...);
   -- model.run()
   .modelNew .tbFromDict, .localAssign, .modelCall .tbRun,
   -- slope-area plot cell
   .modelGetAttr, .modelCall .gridHasBoundaryNeighbor, .libCall, .libCall,
   .localAssign, .modelGetAttr, .localAssign,
   .modelGetAttr, .localAssign, .modelGetAttr, .localAssign,
   .plotCall, .plotCall, .plotCall, .plotCall, .plotCall,
   .arith .plotAxisLimitConst, .arith .plotAxisLimitConst,
   .plotCall, .plotCall, .plotCall, .plotCall, .plotCall, .plotCall,
   .plotCall,
   -- cleanup cell: model.remove_output_netcdfs()
   .modelCall .tbRemoveOutputNetcdfs,
   -- final plot cell: imshow_grid(model.grid, "topographic__elevation")
   .modelGetAttr, .plotCall]

/-- Operation trace of `index.ipynb` (the pymt notebook), cell by cell;
the Part 4 loop body operations are listed once. -/
def pymtOps : List Op :=
  -- import numpy, import matplotlib.pyplot
  [.libImport, .libImport,
   -- import pymt.models; ku = pymt.models.Ku()
   .libImport, .modelNew .kuNew, .localAssign,
   -- Part 1: config_file, run_folder = ku.setup(T_air=-15.21, A_air=18.51)
   .modelCall .kuSetup, .localAssign,
   -- ku.initialize(config_file, run_folder); ku.update()
   .modelCall .kuInit, .modelCall .kuUpdate,
   -- ku.output_var_names; ku.get_value("soil__active_layer_thickness")
   .modelGetAttr, .modelCall .kuGetValue,
   -- Part 2, h_snow = 0.0 episode
   .modelCall .kuSetup, .localAssign, .modelCall .kuInit,
   .modelCall .kuUpdate, .modelCall .kuGetValue,
   -- Part 2, h_snow = 0.4 episode
   .modelCall .kuSetup, .localAssign, .modelCall .kuInit,
   .modelCall .kuUpdate, .modelCall .kuGetValue,
   -- Part 3, vwc_H2O = 0.2 episode
   .modelCall .kuSetup, .localAssign, .modelCall .kuInit,
   .modelCall .kuUpdate, .modelCall .kuGetValue,
   -- Part 3, vwc_H2O = 0.6 episode
   .modelCall .kuSetup, .localAssign, .modelCall .kuInit,
   .modelCall .kuUpdate, .modelCall .kuGetValue,
   -- Part 4: import pandas; data = pandas.read_csv(...)
   .libImport, .libCall, .localAssign,
   -- the three column selections
   .libCall, .localAssign, .libCall, .localAssign, .libCall, .localAssign,
   -- ku = pymt.models.Ku(); args = ku.setup(end_year=2050);
   -- ku.initialize(*args)
   .modelNew .kuNew, .localAssign, .modelCall .kuSetup, .localAssign,
   .modelCall .kuInit,
   -- n_steps = int((ku.end_time - ku.time) / ku.time_step)
   .modelGetAttr, .modelGetAttr, .modelGetAttr, .arith .stepCountCalc,
   .localAssign,
   -- thickness = np.empty(n_steps)
   .libCall, .localAssign,
   -- loop body: three values[i] reads and set_value calls, update,
   -- thickness[i] = get_value(...)
   .libCall, .modelCall .kuSetValue, .libCall, .modelCall .kuSetValue,
   .libCall, .modelCall .kuSetValue, .modelCall .kuUpdate,
   .modelCall .kuGetValue, .localAssign,
   -- plt.plot(thickness)
   .plotCall]

/-- The model-driving calls of an operation trace. -/
def modelDrivingFns (ops : List Op) : List MFn :=
  ops.filterMap (fun o =>
    match o with
    | .modelNew f => some f
    | .modelCall f => some f
    | _ => none)

/-- Membership in the five uniform-interface functions `setup`,
`initialize`, `update`, `get_value`, `set_value`. -/
def isBmiFiveFn : MFn → Bool
  | .kuSetup | .kuInit | .kuUpdate | .kuGetValue | .kuSetValue => true
  | _ => false

/-- C3 counterexample: Not every model interaction of the notebook
code is a call of one of the five library functions: the terrainbento
notebook invokes `model.run()`, which is model-driving and none of the
five. -/
theorem model_calls_beyond_bmi_five :
    Op.modelCall .tbRun ∈ basicVsOps
      ∧ isBmiFiveFn .tbRun = false
      ∧ ((modelDrivingFns basicVsOps).all isBmiFiveFn) = false := by
  decide

/-- C3 amended: Besides plotting and numerical-library calls,
every model-driving call of the pymt notebook is one of the five
uniform-interface functions or the `pymt.models.Ku()` constructor, and
the terrainbento notebook drives its model exactly through
`BasicVs.from_dict`, `model.run`, `model.remove_output_netcdfs`, and
the grid query `node_has_boundary_neighbor`. -/
theorem model_calls_catalog :
    ((modelDrivingFns pymtOps).all
        (fun f => isBmiFiveFn f || f == .kuNew)) = true
      ∧ ((modelDrivingFns basicVsOps).all (fun f =>
          f == .tbFromDict || f == .tbRun || f == .tbRemoveOutputNetcdfs
            || f == .gridHasBoundaryNeighbor)) = true := by
  decide

/-- The arithmetic sites of an operation trace. -/
def arithSites (ops : List Op) : List ArithSite :=
  ops.filterMap (fun o =>
    match o with
    | .arith s => some s
    | _ => none)

/-- The arithmetic the claim credits to repository code: the
convergence check array difference, its threshold comparison, and the
step count. -/
def isClaimedArithSite : ArithSite → Bool
  | .coreDiffArr | .thresholdCmp | .stepCountCalc => true
  | _ => false

/-- The clock bookkeeping of the same convergence check. -/
def isConvergenceBookkeepingSite : ArithSite → Bool
  | .timePositiveCmp | .stopHeadroomCmp | .stopIncr => true
  | _ => false

/-- C8 counterexample: The repository code computes arithmetic
beyond the convergence check array difference, its threshold
comparison, and the step count: the convergence check also computes
`clock.stop += output_interval`, and the slope-area plot cell computes
the constant axis limits `9 * 10**1` and `1 * 10**6`. -/
theorem arith_beyond_claimed_sites :
    Op.arith .stopIncr ∈ basicVsOps
      ∧ Op.arith .plotAxisLimitConst ∈ basicVsOps
      ∧ ((arithSites (basicVsOps ++ pymtOps)).all isClaimedArithSite)
          = false := by
  decide

/-- C8 amended: With every external library call treated as
opaque, the only arithmetic computed by repository code is the
convergence check (its array difference, threshold comparison, model
time test, and clock-stop headroom comparison and increment), the step
count `n_steps`, and the constant plot-axis-limit expressions. -/
theorem arith_site_catalog :
    ((arithSites (basicVsOps ++ pymtOps)).all (fun s =>
        isClaimedArithSite s || isConvergenceBookkeepingSite s
          || s == .plotAxisLimitConst)) = true := by
  decide

/-- Whether an operation creates a thread, a process, or an
asynchronous task. -/
def spawnsConcurrency : Op → Bool
  | .spawnThread | .spawnProcess | .spawnAsyncTask => true
  | _ => false

/-- C9: The notebook programs manage no concurrent execution: no
operation of either notebook trace creates a thread, a process, or an
asynchronous task; the traces are purely sequential. -/
theorem no_concurrency_ops :
    ((basicVsOps ++ pymtOps).all (fun o => !(spawnsConcurrency o)))
      = true := by
  decide

end Gsa2020
